import Mathlib

/-!
A shallow embedding of the `StorageTransport` request layer of the
`nodejs-storage` client library (file `storage-transport.ts`), together with
theorems checking the natural-language specification of that layer.

The embedding models:
* the WHATWG `Headers` object as an association list of lowercased names,
  with `set` (replace-in-place) and the constructor's `append` semantics;
* `URL` values as a pair of a base string (href without the query string)
  and a query string, with `url.search = qp` modelled as replacing the
  `search` component (fragments are not modelled);
* `URLSearchParams` serialization as `application/x-www-form-urlencoded`
  percent-encoding in insertion order, with JavaScript `undefined` values
  stringified to `"undefined"`;
* asynchronous collaborator calls (`authClient.getProjectId`,
  `authClient.request`) as `Except`-valued inputs: each logical
  `makeRequest` call is a pure function of the transport configuration, the
  mutable state it reads (the transport-instance project id, the module
  scope project id, the request engine's interceptor list), the
  collaborators' responses for this call, and the freshly generated
  invocation identifier.  Its result records the config dispatched to the
  request engine (if any), the single outcome (callback invocation or
  promise settlement) and the final mutable state.
-/

/-- UTF-8 bytes of a character (as natural numbers), computed from its code
point; used by the form-urlencoded serializer. -/
def utf8Bytes (c : Char) : List Nat :=
  let n := c.toNat
  if n < 128 then [n]
  else if n < 2048 then [192 + n / 64, 128 + n % 64]
  else if n < 65536 then [224 + n / 4096, 128 + (n / 64) % 64, 128 + n % 64]
  else [240 + n / 262144, 128 + (n / 4096) % 64, 128 + (n / 64) % 64, 128 + n % 64]

/-- Upper-case hexadecimal digit. -/
def hexDigit (n : Nat) : Char :=
  if n < 10 then Char.ofNat (48 + n) else Char.ofNat (55 + n)

/-- Form-urlencoded (`application/x-www-form-urlencoded`) encoding of one byte: alphanumerics
and `*`, `-`, `.`, `_` stay, space becomes `+`, the rest is
percent-encoded. -/
def encodeByte (n : Nat) : String :=
  if (48 ≤ n ∧ n ≤ 57) ∨ (65 ≤ n ∧ n ≤ 90) ∨ (97 ≤ n ∧ n ≤ 122)
      ∨ n = 42 ∨ n = 45 ∨ n = 46 ∨ n = 95 then
    String.singleton (Char.ofNat n)
  else if n = 32 then "+"
  else "%" ++ String.singleton (hexDigit (n / 16)) ++ String.singleton (hexDigit (n % 16))

/-- Percent-encoding of a string as performed by `URLSearchParams` (UTF-8, form variant). -/
def urlencode (s : String) : String :=
  String.join (s.data.map (fun c => String.join ((utf8Bytes c).map encodeByte)))

/-- ASCII lower-casing of a character (header-name normalization). -/
def lowerChar (c : Char) : Char :=
  if c.isUpper then Char.ofNat (c.toNat + 32) else c

/-- ASCII lower-casing of a string (header-name normalization performed by
the `Headers` object). -/
def lowerStr (s : String) : String := String.mk (s.data.map lowerChar)

/-- The `Headers` object: an association list of (lowercased name, value).
A `Headers` object never holds two entries with the same (lowercased) name;
the operations below preserve that invariant and are written as
replace-the-match recursions. -/
abbrev HeadersM := List (String × String)

/-- Lookup of a lowercased name in a headers list. -/
def hfind : HeadersM → String → Option String
  | [], _ => none
  | p :: rest, l => if p.1 = l then some p.2 else hfind rest l

/-- Model of `headers.get(n)`: lookup is case-insensitive. -/
def hget (hs : HeadersM) (n : String) : Option String :=
  hfind hs (lowerStr n)

/-- Model of `headers.set(n, v)`: replace the value in place if the name is
present (names are case-insensitive), otherwise append a new entry. -/
def hset : HeadersM → String → String → HeadersM
  | [], n, v => [(lowerStr n, v)]
  | p :: rest, n, v =>
      if p.1 = lowerStr n then (p.1, v) :: rest else p :: hset rest n v

/-- Model of `headers.append(n, v)` as used by the `Headers` constructor:
combine with an existing value using `", "`, otherwise append a new
entry. -/
def happend : HeadersM → String → String → HeadersM
  | [], n, v => [(lowerStr n, v)]
  | p :: rest, n, v =>
      if p.1 = lowerStr n then (p.1, p.2 ++ ", " ++ v) :: rest
      else p :: happend rest n v

/-- Model of `new Headers(record)`: append every entry of the record in order. -/
def headersOfList (l : List (String × String)) : HeadersM :=
  l.foldl (fun hs p => happend hs p.1 p.2) []

/-- A parsed `URL` value: the href without its query string, plus the query
string (without the leading `?`).  `url.search = qp` is modelled as
replacing the `search` component. -/
structure Url where
  base : String
  search : String
deriving DecidableEq, Repr

/-- The characters before the first occurrence of `sep`. -/
def charsBefore (sep : Char) : List Char → List Char
  | [] => []
  | c :: rest => if c = sep then [] else c :: charsBefore sep rest

/-- The characters after the first occurrence of `sep` (`none` when `sep`
does not occur). -/
def charsAfter (sep : Char) : List Char → Option (List Char)
  | [] => none
  | c :: rest => if c = sep then some rest else charsAfter sep rest

/-- The part of a URL string before its first `?`. -/
def stripSearch (s : String) : String := String.mk (charsBefore '?' s.data)

/-- The part of a URL string after its first `?` (without the `?`). -/
def searchOf (s : String) : String := String.mk ((charsAfter '?' s.data).getD [])

/-- Model of `new URL(s)` for an absolute URL string, in this model: split the string
at its first `?` into base and search. -/
def urlOfString (s : String) : Url := { base := stripSearch s, search := searchOf s }

/-- Scheme characters allowed after the first letter of a URL scheme. -/
def isSchemeChar (c : Char) : Bool :=
  c.isAlphanum || c == '+' || c == '-' || c == '.'

/-- Helper for `isValidUrl`: scan for the `:` terminating a scheme. -/
def hasSchemeColon : List Char → Bool
  | [] => false
  | c :: rest => if c == ':' then true else isSchemeChar c && hasSchemeColon rest

/-- Model of `#isValidUrl`: whether `new URL(url)` succeeds without a base, i.e.
whether the string starts with a URL scheme (`alpha (alphanum|+|-|.)* :`).
This abstracts the WHATWG parser's absolute-URL check. -/
def isValidUrl (s : String) : Bool :=
  match s.data with
  | [] => false
  | c :: rest => c.isAlpha && hasSchemeColon rest

/-- A query-parameter mapping: keys to values, where a value of `none`
models a JavaScript property explicitly set to `undefined`.  Objects in the
source cannot hold duplicate keys; theorems that need uniqueness take it as
a hypothesis. -/
abbrev QueryParams := List (String × Option String)

/-- Lookup of a key in a query-parameter mapping, distinguishing an absent
key (`none`) from a key whose value is `undefined` (`some none`). -/
def queryLookup : QueryParams → String → Option (Option String)
  | [], _ => none
  | p :: rest, k => if p.1 = k then some p.2 else queryLookup rest k

/-- Model of the JavaScript test `'project' in queryParameters`. -/
def queryHasKey (qps : QueryParams) (k : String) : Bool :=
  (queryLookup qps k).isSome

/-- Model of the property read `queryParameters[k]` (JavaScript semantics:
`undefined` when the key is absent or its value is `undefined`). -/
def queryValue (qps : QueryParams) (k : String) : Option String :=
  (queryLookup qps k).getD none

/-- Model of the property write `queryParameters[k] = v` on a present key
(a write to an existing key keeps its position; object keys are unique). -/
def setQueryParam : QueryParams → String → Option String → QueryParams
  | [], _, _ => []
  | p :: rest, k, v =>
      if p.1 = k then (k, v) :: rest else p :: setQueryParam rest k v

/-- JavaScript stringification of a possibly-`undefined` value, as performed
by `URLSearchParams` on the values of the query record. -/
def jsString : Option String → String
  | some s => s
  | none => "undefined"

/-- Model of `new URLSearchParams(record).toString()`: entries in insertion order,
form-urlencoded, joined with `&`. -/
def serializeQuery (qps : QueryParams) : String :=
  String.intercalate "&" (qps.map (fun p => urlencode p.1 ++ "=" ++ urlencode (jsString p.2)))

/-- A response of the request engine (`GaxiosResponse`), restricted to the
fields the transport reads: the payload and the HTTP status. -/
structure GaxiosResponse (T : Type) where
  data : T
  status : Nat
deriving DecidableEq, Repr

/-- An error of the request engine or auth collaborator (`GaxiosError`):
a message and an optional attached response. -/
structure GaxiosError (T : Type) where
  message : String
  response : Option (GaxiosResponse T) := none
deriving DecidableEq, Repr

/-- An opaque request interceptor value (interceptors are functions in the
source; only their identity matters to the transport). -/
structure Interceptor where
  id : Nat
deriving DecidableEq, Repr

/-- Modelled from the spec: the `RetryOptions` interface lives in
`storage.ts`, which is not among the given sources; §3 of the spec lists its
fields (`maxRetries`, `retryDelayMultiplier`, `maxRetryDelay`,
`totalTimeout`, `retryableErrorFn`). -/
structure RetryOptions (T : Type) where
  maxRetries : Nat
  retryDelayMultiplier : Rat
  maxRetryDelay : Rat
  totalTimeout : Rat
  retryableErrorFn : GaxiosError T → Bool

/-- The `retryConfig` record handed to `authClient.request`. -/
structure RetryConfig (T : Type) where
  retry : Nat
  noResponseRetries : Nat
  maxRetryDelay : Rat
  retryDelayMultiplier : Rat
  shouldRetry : GaxiosError T → Bool
  totalTimeout : Rat

/-- The `StorageRequestOptions` interface: the request descriptor handed to `makeRequest`.
`none` models an absent (undefined) property. -/
structure StorageRequestOptions (T : Type) where
  url : Option String := none
  method : Option String := none
  data : Option String := none
  headers : Option (List (String × String)) := none
  timeout : Option Nat := none
  retryConfig : Option (RetryConfig T) := none
  interceptors : Option (List Interceptor) := none
  projectId : Option String := none
  queryParameters : Option QueryParams := none
  gcclGcsCmd : Option String := none

/-- The config object handed to `authClient.request` by `makeRequest`:
`{retryConfig: {...}, ...reqOpts, headers, url, timeout}`. -/
structure RequestConfig (T : Type) where
  retryConfig : RetryConfig T
  method : Option String
  data : Option String
  headers : HeadersM
  url : Url
  timeout : Option Nat

/-- The immutable per-instance configuration set by the
`StorageTransport` constructor. -/
structure TransportConfig (T : Type) where
  baseUrl : String
  providedUserAgent : Option String := none
  retryOptions : RetryOptions T
  timeout : Option Nat := none

/-- The mutable state a `makeRequest` call reads and writes besides the
module-scope project id: the instance field `this.projectId` and the shared
request engine's interceptor list. -/
structure TransportState where
  transPid : Option String := none
  interceptors : List Interceptor := []
deriving DecidableEq, Repr

/-- The responses of the auth collaborator for one logical call:
`getProjectId()` settles with a project id or an error, and `request(cfg)`
settles with a response or an error. -/
structure AuthEnv (T : Type) where
  getProjectId : Except (GaxiosError T) String
  request : RequestConfig T → Except (GaxiosError T) (GaxiosResponse T)

/-- The single resolution of one logical `makeRequest` call: a callback
invocation `callback(err, data, resp)` (with `none` standing for both
`null` and `undefined` arguments), or a settlement of the returned
promise. -/
inductive Outcome (T : Type) where
  | callbackCalled (err : Option (GaxiosError T)) (data : Option T)
      (resp : Option (GaxiosResponse T))
  | promiseResolved (data : T)
  | promiseRejected (err : GaxiosError T)
deriving DecidableEq, Repr

/-- Everything observable about one `makeRequest` call: the config
dispatched to `authClient.request` (`none` when the call failed before
dispatch), the outcome, and the final mutable state. -/
structure MkResult (T : Type) where
  dispatched : Option (RequestConfig T)
  outcome : Outcome T
  state : TransportState
  modulePid : Option String

/-- Modelled from the spec: `getUserAgentString` of `./util` is not among
the given sources; per §4.2 the transport's user agent is the provided
agent prefixed to "a computed default string".  The default is a fixed
non-empty product identifier. -/
def utilUserAgentString : String := "gcloud-node-storage/7.16.0"

/-- Modelled from the spec: `getRuntimeTrackingString` of `./util` is not
among the given sources; per §4.2 it is "a runtime-identification
string". -/
def runtimeTrackingString : String := "gl-node/18.0.0"

/-- Modelled from the spec: `getModuleFormat` of `./util` is not among the
given sources; per §4.2 it is the library's "module-format tag". -/
def moduleFormat : String := "ESM"

/-- Model of `#getUserAgentString`: the provided user agent, when configured
(truthy), prefixed to the computed default. -/
def getUserAgentString (t : TransportConfig T) : String :=
  match t.providedUserAgent with
  | some ua => if ua = "" then utilUserAgentString else ua ++ " " ++ utilUserAgentString
  | none => utilUserAgentString

/-- The `x-goog-api-client` tracking value set by `#buildRequestHeaders`
(the `gccl/7.16.0` literal is from the source; `uuid` is this call's
`randomUUID()`). -/
def trackingString (uuid : String) : String :=
  runtimeTrackingString ++ " gccl/7.16.0-" ++ moduleFormat ++ " gccl-invocation-id/" ++ uuid

/-- Model of `#buildRequestHeaders`: wrap the caller's headers in a `Headers` object,
then unconditionally set `User-Agent` and `x-goog-api-client`. -/
def buildRequestHeaders (t : TransportConfig T) (uuid : String)
    (requestHeaders : List (String × String)) : HeadersM :=
  hset (hset (headersOfList requestHeaders) "User-Agent" (getUserAgentString t))
    "x-goog-api-client" (trackingString uuid)

/-- The `GCCL_GCS_CMD_KEY` step of `makeRequest`: when the command tag is
present (truthy), append ` gccl-gcs-cmd/<tag>` to the tracking header. -/
def applyCmdTag (gccl : Option String) (headers : HeadersM) : HeadersM :=
  match gccl with
  | some tag =>
      if tag = "" then headers
      else hset headers "x-goog-api-client"
        ((hget headers "x-goog-api-client").getD "null" ++ " gccl-gcs-cmd/" ++ tag)
  | none => headers

/-- The interceptor step of `makeRequest`: a (possibly empty) interceptor
list on the descriptor clears the engine's list and installs the
descriptor's, in order; an absent one leaves the list alone. -/
def newInterceptors (ro : StorageRequestOptions T) (st : TransportState) : List Interceptor :=
  match ro.interceptors with
  | some l => l
  | none => st.interceptors

/-- The `project` substitution of `#buildUrl`: when the key `project` is
present and its value differs from the instance project id or from the
module-scope project id, overwrite it with the instance project id. -/
def effectiveQueryParams (transPid modPid : Option String) (qps : QueryParams) : QueryParams :=
  if queryHasKey qps "project"
      && (decide (queryValue qps "project" ≠ transPid)
          || decide (queryValue qps "project" ≠ modPid)) then
    setQueryParam qps "project" transPid
  else qps

/-- Model of `#buildUrl`: substitute the `project` parameter, pick the absolute URL
verbatim or concatenate onto the base URL, then replace the URL's search
component with the serialized query parameters. -/
def buildUrl (baseUrl : String) (transPid modPid : Option String)
    (pathUri : String) (qps : QueryParams) : Url :=
  let search := serializeQuery (effectiveQueryParams transPid modPid qps)
  if isValidUrl pathUri then
    { base := stripSearch pathUri, search := search }
  else
    { base := stripSearch (baseUrl ++ pathUri), search := search }

/-- Whether the inner `getProjectId` closure of `makeRequest` falls through
to `authClient.getProjectId()` (it does unless `reqOpts.projectId` is
truthy). -/
def usesAuthLookup (ro : StorageRequestOptions T) : Bool :=
  match ro.projectId with
  | some p => p = ""
  | none => true

/-- The settlement of the inner `getProjectId()` closure of `makeRequest`:
a truthy explicit `reqOpts.projectId` is returned as is, otherwise the auth
collaborator's lookup decides. -/
def resolveProjectIdResult (ro : StorageRequestOptions T) (auth : AuthEnv T) :
    Except (GaxiosError T) String :=
  if usesAuthLookup ro then auth.getProjectId else .ok (ro.projectId.getD "")

/-- The `retryConfig` built from the transport's `RetryOptions` at dispatch
time. -/
def defaultRetryConfig (opts : RetryOptions T) : RetryConfig T :=
  { retry := opts.maxRetries
    noResponseRetries := opts.maxRetries
    maxRetryDelay := opts.maxRetryDelay
    retryDelayMultiplier := opts.retryDelayMultiplier
    shouldRetry := opts.retryableErrorFn
    totalTimeout := opts.totalTimeout }

/-- The config object handed to `authClient.request`: the transport's retry
config first, then the spread of the descriptor (which can override
`retryConfig`), then the computed `headers`, `url` and the transport's
`timeout` (which override any descriptor values). -/
def dispatchConfig (t : TransportConfig T) (transPid modPid : Option String)
    (ro : StorageRequestOptions T) (headers : HeadersM) : RequestConfig T :=
  { retryConfig := ro.retryConfig.getD (defaultRetryConfig t.retryOptions)
    method := ro.method
    data := ro.data
    headers := headers
    url := buildUrl t.baseUrl transPid modPid (ro.url.getD "") (ro.queryParameters.getD [])
    timeout := t.timeout }

/-- Model of `requestPromise.then(...).catch(...)` and of `requestPromise.then(resp =>
resp.data)`: how the settlement of `authClient.request` is normalized into
the call's outcome, for each calling convention. -/
def dispatchOutcome (hasCallback : Bool) :
    Except (GaxiosError T) (GaxiosResponse T) → Outcome T
  | .ok resp =>
      if hasCallback then .callbackCalled none (some resp.data) (some resp)
      else .promiseResolved resp.data
  | .error err =>
      if hasCallback then .callbackCalled (some err) none err.response
      else .promiseRejected err

/-- Model of `StorageTransport.makeRequest`, as a pure function of the transport
configuration, the mutable state read at entry (`st` and the module-scope
`modulePid`), the collaborators' settlements for this call, the descriptor,
this call's fresh invocation id and the calling convention. -/
def makeRequest (t : TransportConfig T) (st : TransportState) (modulePid : Option String)
    (auth : AuthEnv T) (ro : StorageRequestOptions T) (uuid : String)
    (hasCallback : Bool) : MkResult T :=
  let headers := applyCmdTag ro.gcclGcsCmd (buildRequestHeaders t uuid (ro.headers.getD []))
  let inters := newInterceptors ro st
  match resolveProjectIdResult ro auth with
  | .error e =>
      { dispatched := none
        outcome :=
          if hasCallback then .callbackCalled (some e) none none else .promiseRejected e
        state := { transPid := st.transPid, interceptors := inters }
        modulePid := modulePid }
  | .ok s =>
      let modulePid1 := if usesAuthLookup ro then some s else modulePid
      let modulePid2 := if s = "" then modulePid1 else some s
      let transPid2 := if s = "" then st.transPid else some s
      let cfg := dispatchConfig t transPid2 modulePid2 ro headers
      { dispatched := some cfg
        outcome := dispatchOutcome hasCallback (auth.request cfg)
        state := { transPid := transPid2, interceptors := inters }
        modulePid := modulePid2 }

/-! Concrete fixtures used by witnesses and counterexamples. -/

/-- A concrete retry configuration for the fixture transport. -/
def fixRetryOptions : RetryOptions Nat :=
  { maxRetries := 3, retryDelayMultiplier := 2, maxRetryDelay := 32, totalTimeout := 600,
    retryableErrorFn := fun _ => true }

/-- A concrete transport configuration. -/
def fixTransport : TransportConfig Nat :=
  { baseUrl := "https://storage.googleapis.com/storage/v1",
    retryOptions := fixRetryOptions, timeout := some 60000 }

/-- A concrete successful response of the request engine. -/
def fixResp : GaxiosResponse Nat := { data := 7, status := 200 }

/-- An auth collaborator whose project-id lookup yields `correct-id` and
whose requests succeed with `fixResp`. -/
def fixAuthOk : AuthEnv Nat :=
  { getProjectId := .ok "correct-id", request := fun _ => .ok fixResp }

/-- A dispatch error carrying a response. -/
def fixReqErr : GaxiosError Nat :=
  { message := "service unavailable", response := some { data := 0, status := 503 } }

/-- An auth collaborator whose project-id lookup succeeds but whose requests
fail with `fixReqErr`. -/
def fixAuthReqFail : AuthEnv Nat :=
  { getProjectId := .ok "correct-id", request := fun _ => .error fixReqErr }

/-- A response attached to a failed project-id lookup (e.g. a metadata
server error). -/
def fixLookupResp : GaxiosResponse Nat := { data := 0, status := 500 }

/-- A project-id lookup error that carries a response. -/
def fixLookupErr : GaxiosError Nat :=
  { message := "metadata lookup failed", response := some fixLookupResp }

/-- An auth collaborator whose project-id lookup fails with
`fixLookupErr`. -/
def fixAuthLookupFail : AuthEnv Nat :=
  { getProjectId := .error fixLookupErr, request := fun _ => .ok fixResp }

/-- An auth collaborator whose project-id lookup yields `auth-id`. -/
def fixAuthAuthId : AuthEnv Nat :=
  { getProjectId := .ok "auth-id", request := fun _ => .ok fixResp }

/-- A descriptor whose query parameters carry a mismatched `project`. -/
def fixRoQuery : StorageRequestOptions Nat :=
  { url := some "/b/bucket", queryParameters := some [("project", some "wrong-id")] }

/-- A descriptor with caller-supplied headers. -/
def fixRoHeaders : StorageRequestOptions Nat :=
  { headers := some [("Content-Type", "application/json"), ("X-Custom", "yes")] }

/-- A descriptor whose url is absolute and carries its own query string. -/
def fixRoAbs : StorageRequestOptions Nat :=
  { url := some "https://example.com/x?token=1" }

/-- A descriptor-level retry configuration distinct from the transport's. -/
def fixRcOverride : RetryConfig Nat :=
  { retry := 99, noResponseRetries := 98, maxRetryDelay := 1, retryDelayMultiplier := 1,
    shouldRetry := fun _ => false, totalTimeout := 1 }

/-- A descriptor carrying its own `retryConfig`. -/
def fixRoRc : StorageRequestOptions Nat := { retryConfig := some fixRcOverride }

/-- A descriptor carrying a command tag. -/
def fixRoTag : StorageRequestOptions Nat := { gcclGcsCmd := some "tm.upload" }

/-- A descriptor carrying an explicit per-request project id. -/
def fixRoPid : StorageRequestOptions Nat := { projectId := some "override-id" }

/-- A descriptor carrying request interceptors. -/
def fixRoInter : StorageRequestOptions Nat :=
  { interceptors := some [{ id := 2 }, { id := 3 }] }

/-- A descriptor with raw `url`, `headers` and `timeout` fields set. -/
def fixRoRaw : StorageRequestOptions Nat :=
  { url := some "/b/bucket", timeout := some 1,
    headers := some [("User-Agent", "custom-agent")] }

/-- A transport state with a previously installed interceptor. -/
def fixState : TransportState := { interceptors := [{ id := 1 }] }

/-- The headers `makeRequest` computes for a descriptor on the fixture
transport. -/
def fixHeaders (ro : StorageRequestOptions Nat) (uuid : String) : HeadersM :=
  applyCmdTag ro.gcclGcsCmd (buildRequestHeaders fixTransport uuid (ro.headers.getD []))

/-- The config `makeRequest` dispatches for a descriptor on the fixture
transport once the project id resolved to `pid`. -/
def fixCfg (ro : StorageRequestOptions Nat) (uuid pid : String) : RequestConfig Nat :=
  dispatchConfig fixTransport (some pid) (some pid) ro (fixHeaders ro uuid)

/-- A concrete transport configuration that does configure a provided user
agent. -/
def fixTransportUA : TransportConfig Nat :=
  { baseUrl := "https://storage.googleapis.com/storage/v1",
    providedUserAgent := some "my-app/1.2",
    retryOptions := fixRetryOptions, timeout := some 60000 }

/-- The headers `makeRequest` computes for a descriptor on the fixture
transport with a provided user agent. -/
def fixHeadersUA (ro : StorageRequestOptions Nat) (uuid : String) : HeadersM :=
  applyCmdTag ro.gcclGcsCmd (buildRequestHeaders fixTransportUA uuid (ro.headers.getD []))

/-- The config `makeRequest` dispatches for a descriptor on the fixture
transport with a provided user agent, once the project id resolved to
`pid`. -/
def fixCfgUA (ro : StorageRequestOptions Nat) (uuid pid : String) : RequestConfig Nat :=
  dispatchConfig fixTransportUA (some pid) (some pid) ro (fixHeadersUA ro uuid)

/-! Helper lemmas about the `Headers` and query-parameter models. -/

theorem hget_hset_self (hs : HeadersM) (n v : String) :
    hget (hset hs n v) n = some v := by
  unfold hget
  induction hs with
  | nil => simp [hset, hfind]
  | cons p rest ih =>
    by_cases h : p.1 = lowerStr n
    · simp [hset, hfind, h]
    · simp [hset, hfind, h, ih]

theorem hget_hset_ne (hs : HeadersM) (n v n' : String)
    (hne : lowerStr n' ≠ lowerStr n) :
    hget (hset hs n v) n' = hget hs n' := by
  unfold hget
  induction hs with
  | nil => simp [hset, hfind, Ne.symm hne]
  | cons p rest ih =>
    by_cases h : p.1 = lowerStr n
    · by_cases h' : p.1 = lowerStr n'
      · exact absurd (h' ▸ h) hne
      · simp [hset, hfind, h, h', Ne.symm hne]
    · simp only [hset, if_neg h]
      by_cases h' : p.1 = lowerStr n'
      · simp [hfind, h']
      · simp [hfind, h', ih]

theorem queryValue_setQueryParam (qps : QueryParams) (k : String) (v : Option String)
    (h : queryHasKey qps k = true) :
    queryValue (setQueryParam qps k v) k = v := by
  induction qps with
  | nil => simp [queryHasKey, queryLookup] at h
  | cons p rest ih =>
    by_cases hp : p.1 = k
    · simp [setQueryParam, queryValue, queryLookup, hp]
    · have h' : queryHasKey rest k = true := by
        simpa [queryHasKey, queryLookup, hp] using h
      simpa [setQueryParam, queryValue, queryLookup, hp] using ih h'

theorem happend_fresh (acc : HeadersM) (n v : String)
    (h : ∀ q ∈ acc, q.1 ≠ lowerStr n) :
    happend acc n v = acc ++ [(lowerStr n, v)] := by
  induction acc with
  | nil => simp [happend]
  | cons p rest ih =>
    have hp : p.1 ≠ lowerStr n := h p (by simp)
    simp only [happend, if_neg hp, List.cons_append, List.cons.injEq, true_and]
    exact ih (fun q hq => h q (by simp [hq]))

theorem headersFold_eq (l : List (String × String)) (acc : HeadersM)
    (hdisj : ∀ p ∈ l, ∀ q ∈ acc, q.1 ≠ lowerStr p.1)
    (hnd : (l.map (fun p => lowerStr p.1)).Nodup) :
    l.foldl (fun hs p => happend hs p.1 p.2) acc
      = acc ++ l.map (fun p => (lowerStr p.1, p.2)) := by
  induction l generalizing acc with
  | nil => simp
  | cons hd tl ih =>
    simp only [List.foldl_cons]
    rw [happend_fresh acc hd.1 hd.2 (hdisj hd (by simp))]
    rw [ih (acc ++ [(lowerStr hd.1, hd.2)]) ?_ (List.nodup_cons.mp hnd).2]
    · simp
    · intro p hp q hq
      rcases List.mem_append.mp hq with hq1 | hq2
      · exact hdisj p (by simp [hp]) q hq1
      · have hq3 : q = (lowerStr hd.1, hd.2) := by simpa using hq2
        have hmem : lowerStr p.1 ∈ tl.map (fun p => lowerStr p.1) :=
          List.mem_map.mpr ⟨p, hp, rfl⟩
        have hne := (List.nodup_cons.mp hnd).1
        intro hc
        rw [hq3] at hc
        have hc' : lowerStr hd.1 = lowerStr p.1 := hc
        exact hne (show lowerStr hd.1 ∈ tl.map (fun p => lowerStr p.1) from by
          rw [hc']
          exact hmem)

theorem headersOfList_eq (l : List (String × String))
    (hnd : (l.map (fun p => lowerStr p.1)).Nodup) :
    headersOfList l = l.map (fun p => (lowerStr p.1, p.2)) := by
  unfold headersOfList
  rw [headersFold_eq l [] (fun p _ q hq => absurd hq (List.not_mem_nil q)) hnd]
  simp

theorem hget_headersOfList (l : List (String × String)) (k v : String)
    (hnd : (l.map (fun p => lowerStr p.1)).Nodup)
    (hmem : (k, v) ∈ l) :
    hget (headersOfList l) k = some v := by
  rw [headersOfList_eq l hnd]
  unfold hget
  induction l with
  | nil => simp at hmem
  | cons hd tl ih =>
    rcases List.mem_cons.mp hmem with hh | ht
    · simp [hfind, ← hh]
    · by_cases hc : lowerStr hd.1 = lowerStr k
      · have hmem2 : lowerStr k ∈ tl.map (fun p => lowerStr p.1) := by
          have : lowerStr k = lowerStr (k, v).1 := rfl
          exact List.mem_map.mpr ⟨(k, v), ht, rfl⟩
        have hnotin := (List.nodup_cons.mp hnd).1
        exact absurd (by rw [hc]; exact hmem2 : lowerStr hd.1 ∈ tl.map (fun p => lowerStr p.1)) hnotin
      · simp only [List.map_cons, hfind, if_neg hc]
        exact ih (List.nodup_cons.mp hnd).2 ht

/-! String nonemptiness helpers. -/

theorem append_ne_empty_left (a b : String) (h : a ≠ "") : a ++ b ≠ "" := by
  intro hab
  apply h
  apply String.ext
  have hd := congrArg String.data hab
  rw [String.data_append] at hd
  have h2 := List.append_eq_nil.mp hd
  rw [h2.1]

theorem append_ne_empty_right (a b : String) (h : b ≠ "") : a ++ b ≠ "" := by
  intro hab
  apply h
  apply String.ext
  have hd := congrArg String.data hab
  rw [String.data_append] at hd
  have h2 := List.append_eq_nil.mp hd
  rw [h2.2]

theorem trackingString_ne_empty (uuid : String) : trackingString uuid ≠ "" := by
  unfold trackingString
  apply append_ne_empty_left
  apply append_ne_empty_left
  apply append_ne_empty_left
  apply append_ne_empty_left
  decide

theorem getUserAgentString_ne_empty {T : Type} (t : TransportConfig T) :
    getUserAgentString t ≠ "" := by
  unfold getUserAgentString
  cases t.providedUserAgent with
  | none => decide
  | some ua =>
    by_cases h : ua = ""
    · simp only [if_pos h]
      decide
    · simp only [if_neg h]
      exact append_ne_empty_right _ _ (by decide)

/-! Characterizations of one `makeRequest` call. -/

theorem makeRequest_dispatched_eq {T : Type} (t : TransportConfig T)
    (st : TransportState) (mp : Option String) (auth : AuthEnv T)
    (ro : StorageRequestOptions T) (uuid : String) (cb : Bool) (pid : String)
    (hres : resolveProjectIdResult ro auth = .ok pid) (hpid : pid ≠ "") :
    (makeRequest t st mp auth ro uuid cb).dispatched
      = some (dispatchConfig t (some pid) (some pid) ro
          (applyCmdTag ro.gcclGcsCmd (buildRequestHeaders t uuid (ro.headers.getD [])))) := by
  unfold makeRequest
  rw [hres]
  simp [hpid]

theorem makeRequest_headers_eq {T : Type} (t : TransportConfig T)
    (st : TransportState) (mp : Option String) (auth : AuthEnv T)
    (ro : StorageRequestOptions T) (uuid : String) (cb : Bool)
    (cfg : RequestConfig T)
    (h : (makeRequest t st mp auth ro uuid cb).dispatched = some cfg) :
    cfg.headers = applyCmdTag ro.gcclGcsCmd (buildRequestHeaders t uuid (ro.headers.getD [])) := by
  unfold makeRequest at h
  cases hres : resolveProjectIdResult ro auth with
  | error e => rw [hres] at h; simp at h
  | ok s =>
    rw [hres] at h
    simp only [Option.some.injEq] at h
    rw [← h]
    rfl

theorem makeRequest_interceptors_eq {T : Type} (t : TransportConfig T)
    (st : TransportState) (mp : Option String) (auth : AuthEnv T)
    (ro : StorageRequestOptions T) (uuid : String) (cb : Bool) :
    (makeRequest t st mp auth ro uuid cb).state.interceptors = newInterceptors ro st := by
  unfold makeRequest
  cases hres : resolveProjectIdResult ro auth <;> simp

theorem makeRequest_pids_eq {T : Type} (t : TransportConfig T)
    (st : TransportState) (mp : Option String) (auth : AuthEnv T)
    (ro : StorageRequestOptions T) (uuid : String) (cb : Bool) (pid : String)
    (hres : resolveProjectIdResult ro auth = .ok pid) (hpid : pid ≠ "") :
    (makeRequest t st mp auth ro uuid cb).modulePid = some pid ∧
    (makeRequest t st mp auth ro uuid cb).state.transPid = some pid := by
  unfold makeRequest
  rw [hres]
  simp [hpid]

/-! Claim theorems. -/

/-- **C1** (amended): for every `makeRequest` call, exactly one resolution
path executes.  With a callback, the outcome is always a single callback
invocation and the returned promise never rejects: `callback(null, data,
fullResponse)` on dispatch success, `callback(error, null, error.response)`
on dispatch failure, and `callback(error)` alone — with no response
argument — when the call fails before dispatch (project-id resolution).
Without a callback, the returned promise resolves with `data` on success
and rejects with the error on failure (dispatched or not). -/
theorem makeRequest_outcome_normalization {T : Type} (t : TransportConfig T)
    (st : TransportState) (mp : Option String) (auth : AuthEnv T)
    (ro : StorageRequestOptions T) (uuid : String) :
    (∃ e d r, (makeRequest t st mp auth ro uuid true).outcome = .callbackCalled e d r) ∧
    (∀ e d r, (makeRequest t st mp auth ro uuid false).outcome ≠ .callbackCalled e d r) ∧
    (∀ cfg resp, (makeRequest t st mp auth ro uuid true).dispatched = some cfg →
      auth.request cfg = .ok resp →
      (makeRequest t st mp auth ro uuid true).outcome
        = .callbackCalled none (some resp.data) (some resp)) ∧
    (∀ cfg resp, (makeRequest t st mp auth ro uuid false).dispatched = some cfg →
      auth.request cfg = .ok resp →
      (makeRequest t st mp auth ro uuid false).outcome = .promiseResolved resp.data) ∧
    (∀ cfg err, (makeRequest t st mp auth ro uuid true).dispatched = some cfg →
      auth.request cfg = .error err →
      (makeRequest t st mp auth ro uuid true).outcome
        = .callbackCalled (some err) none err.response) ∧
    (∀ cfg err, (makeRequest t st mp auth ro uuid false).dispatched = some cfg →
      auth.request cfg = .error err →
      (makeRequest t st mp auth ro uuid false).outcome = .promiseRejected err) ∧
    (∀ e, resolveProjectIdResult ro auth = .error e →
      (makeRequest t st mp auth ro uuid true).outcome = .callbackCalled (some e) none none ∧
      (makeRequest t st mp auth ro uuid false).outcome = .promiseRejected e) := by
  unfold makeRequest
  cases hres : resolveProjectIdResult ro auth with
  | error e =>
    refine ⟨⟨some e, none, none, by simp⟩, ?_, ?_, ?_, ?_, ?_, ?_⟩
    · intro e' d r
      simp
    · intro cfg resp hcfg
      simp at hcfg
    · intro cfg resp hcfg
      simp at hcfg
    · intro cfg err hcfg
      simp at hcfg
    · intro cfg err hcfg
      simp at hcfg
    · intro e' he
      cases he
      simp
  | ok s =>
    refine ⟨?_, ?_, ?_, ?_, ?_, ?_, ?_⟩
    · simp only []
      cases hreq : auth.request (dispatchConfig t (if s = "" then st.transPid else some s)
          (if s = "" then (if usesAuthLookup ro then some s else mp) else some s) ro
          (applyCmdTag ro.gcclGcsCmd (buildRequestHeaders t uuid (ro.headers.getD [])))) with
      | ok resp => exact ⟨none, some resp.data, some resp, by simp [dispatchOutcome, hreq]⟩
      | error err => exact ⟨some err, none, err.response, by simp [dispatchOutcome, hreq]⟩
    · intro e d r
      simp only []
      cases hreq : auth.request (dispatchConfig t (if s = "" then st.transPid else some s)
          (if s = "" then (if usesAuthLookup ro then some s else mp) else some s) ro
          (applyCmdTag ro.gcclGcsCmd (buildRequestHeaders t uuid (ro.headers.getD [])))) with
      | ok resp => simp [dispatchOutcome, hreq]
      | error err => simp [dispatchOutcome, hreq]
    · intro cfg resp hcfg hreq
      simp only [Option.some.injEq] at hcfg
      simp [dispatchOutcome, hcfg, hreq]
    · intro cfg resp hcfg hreq
      simp only [Option.some.injEq] at hcfg
      simp [dispatchOutcome, hcfg, hreq]
    · intro cfg err hcfg hreq
      simp only [Option.some.injEq] at hcfg
      simp [dispatchOutcome, hcfg, hreq]
    · intro cfg err hcfg hreq
      simp only [Option.some.injEq] at hcfg
      simp [dispatchOutcome, hcfg, hreq]
    · intro e' he
      simp at he

theorem hget_buildRequestHeaders_tracking {T : Type} (t : TransportConfig T)
    (uuid : String) (hs : List (String × String)) :
    hget (buildRequestHeaders t uuid hs) "x-goog-api-client" = some (trackingString uuid) :=
  hget_hset_self _ _ _

theorem hget_buildRequestHeaders_ua {T : Type} (t : TransportConfig T)
    (uuid : String) (hs : List (String × String)) :
    hget (buildRequestHeaders t uuid hs) "User-Agent" = some (getUserAgentString t) := by
  unfold buildRequestHeaders
  rw [hget_hset_ne _ _ _ _ (by decide)]
  exact hget_hset_self _ _ _

theorem hget_buildRequestHeaders_other {T : Type} (t : TransportConfig T)
    (uuid : String) (hs : List (String × String)) (k : String)
    (h1 : lowerStr k ≠ "user-agent") (h2 : lowerStr k ≠ "x-goog-api-client") :
    hget (buildRequestHeaders t uuid hs) k = hget (headersOfList hs) k := by
  have e1 : lowerStr "x-goog-api-client" = "x-goog-api-client" := by decide
  have e2 : lowerStr "User-Agent" = "user-agent" := by decide
  unfold buildRequestHeaders
  rw [hget_hset_ne _ _ _ _ (by rw [e1]; exact h2),
    hget_hset_ne _ _ _ _ (by rw [e2]; exact h1)]

theorem hget_applyCmdTag_other (gccl : Option String) (hs : HeadersM) (k : String)
    (h2 : lowerStr k ≠ "x-goog-api-client") :
    hget (applyCmdTag gccl hs) k = hget hs k := by
  have e1 : lowerStr "x-goog-api-client" = "x-goog-api-client" := by decide
  cases gccl with
  | none => rfl
  | some tag =>
    by_cases ht : tag = ""
    · simp only [applyCmdTag, if_pos ht]
    · simp only [applyCmdTag, if_neg ht]
      rw [hget_hset_ne _ _ _ _ (by rw [e1]; exact h2)]

/-- **C2**: when the descriptor's query parameters carry the reserved key
`project` with a value disagreeing with the resolved project id, the
dispatched URL's query string is the serialization of the parameters with
`project` overwritten by the resolved project id. -/
theorem makeRequest_project_substitution {T : Type} (t : TransportConfig T)
    (st : TransportState) (mp : Option String) (auth : AuthEnv T)
    (ro : StorageRequestOptions T) (uuid : String) (cb : Bool) (pid : String)
    (hres : resolveProjectIdResult ro auth = .ok pid) (hpid : pid ≠ "")
    (hkey : queryHasKey (ro.queryParameters.getD []) "project" = true)
    (hne : queryValue (ro.queryParameters.getD []) "project" ≠ some pid) :
    ∀ cfg, (makeRequest t st mp auth ro uuid cb).dispatched = some cfg →
      cfg.url.search
        = serializeQuery (setQueryParam (ro.queryParameters.getD []) "project" (some pid)) ∧
      queryValue (setQueryParam (ro.queryParameters.getD []) "project" (some pid)) "project"
        = some pid := by
  intro cfg hcfg
  rw [makeRequest_dispatched_eq t st mp auth ro uuid cb pid hres hpid] at hcfg
  simp only [Option.some.injEq] at hcfg
  subst hcfg
  constructor
  · have hcond : (queryHasKey (ro.queryParameters.getD []) "project"
        && (decide (queryValue (ro.queryParameters.getD []) "project" ≠ some pid)
            || decide (queryValue (ro.queryParameters.getD []) "project" ≠ some pid))) = true := by
      rw [hkey, decide_eq_true hne]
      rfl
    show (buildUrl t.baseUrl (some pid) (some pid) (ro.url.getD "")
        (ro.queryParameters.getD [])).search = _
    unfold buildUrl effectiveQueryParams
    rw [hcond]
    cases hvu : isValidUrl (ro.url.getD "") <;> simp
  · exact queryValue_setQueryParam _ _ _ hkey

/-- **C3**: the dispatched headers always carry a non-empty `User-Agent` —
the provided user agent, when configured (truthy), prefixed to the
computed default, and the computed default alone otherwise — and a
non-empty `x-goog-api-client` tracking header, even when the descriptor
supplies no headers; every caller-supplied header other than these two
reserved names is present unchanged. -/
theorem makeRequest_header_composition {T : Type} (t : TransportConfig T)
    (st : TransportState) (mp : Option String) (auth : AuthEnv T)
    (ro : StorageRequestOptions T) (uuid : String) (cb : Bool)
    (hnd : ((ro.headers.getD []).map (fun p => lowerStr p.1)).Nodup) :
    ∀ cfg, (makeRequest t st mp auth ro uuid cb).dispatched = some cfg →
      (∀ ua, t.providedUserAgent = some ua → ua ≠ "" →
        hget cfg.headers "User-Agent" = some (ua ++ " " ++ utilUserAgentString)) ∧
      (t.providedUserAgent = none →
        hget cfg.headers "User-Agent" = some utilUserAgentString) ∧
      (∃ ua, hget cfg.headers "User-Agent" = some ua ∧ ua ≠ "") ∧
      (∃ tr, hget cfg.headers "x-goog-api-client" = some tr ∧ tr ≠ "") ∧
      (∀ p ∈ ro.headers.getD [], lowerStr p.1 ≠ "user-agent" →
        lowerStr p.1 ≠ "x-goog-api-client" → hget cfg.headers p.1 = some p.2) := by
  intro cfg hcfg
  rw [makeRequest_headers_eq t st mp auth ro uuid cb cfg hcfg]
  refine ⟨?_, ?_, ?_, ?_, ?_⟩
  · intro ua hua huane
    rw [hget_applyCmdTag_other _ _ _ (by decide), hget_buildRequestHeaders_ua t uuid _]
    unfold getUserAgentString
    rw [hua]
    simp [huane]
  · intro hua
    rw [hget_applyCmdTag_other _ _ _ (by decide), hget_buildRequestHeaders_ua t uuid _]
    unfold getUserAgentString
    rw [hua]
  · refine ⟨getUserAgentString t, ?_, getUserAgentString_ne_empty t⟩
    rw [hget_applyCmdTag_other _ _ _ (by decide)]
    exact hget_buildRequestHeaders_ua t uuid _
  · cases hg : ro.gcclGcsCmd with
    | none =>
      refine ⟨trackingString uuid, ?_, trackingString_ne_empty uuid⟩
      exact hget_buildRequestHeaders_tracking t uuid _
    | some tag =>
      by_cases ht : tag = ""
      · refine ⟨trackingString uuid, ?_, trackingString_ne_empty uuid⟩
        simp only [applyCmdTag, if_pos ht]
        exact hget_buildRequestHeaders_tracking t uuid _
      · refine ⟨trackingString uuid ++ " gccl-gcs-cmd/" ++ tag, ?_,
          append_ne_empty_left _ _ (append_ne_empty_left _ _ (trackingString_ne_empty uuid))⟩
        simp only [applyCmdTag, if_neg ht]
        rw [hget_hset_self, hget_buildRequestHeaders_tracking t uuid _]
        rfl
  · intro p hp h1 h2
    rw [hget_applyCmdTag_other _ _ _ h2,
      hget_buildRequestHeaders_other t uuid _ _ h1 h2]
    exact hget_headersOfList _ _ _ hnd hp

/-- **C4** (amended): a truthy explicit per-request project id does
overwrite the module-scope cached project id; however a call without an
explicit project id always resolves through the auth collaborator (the
cache is never read during resolution), so a subsequent default call still
resolves to — and re-caches — the identity obtained from the auth
client. -/
theorem makeRequest_project_cache {T : Type} (t : TransportConfig T)
    (st : TransportState) (mp : Option String) (auth : AuthEnv T)
    (ro : StorageRequestOptions T) (uuid : String) (cb : Bool) :
    (∀ p, ro.projectId = some p → p ≠ "" →
      (makeRequest t st mp auth ro uuid cb).modulePid = some p) ∧
    (ro.projectId = none → resolveProjectIdResult ro auth = auth.getProjectId) ∧
    (∀ s, ro.projectId = none → auth.getProjectId = .ok s → s ≠ "" →
      (makeRequest t st mp auth ro uuid cb).modulePid = some s ∧
      (makeRequest t st mp auth ro uuid cb).state.transPid = some s) := by
  refine ⟨?_, ?_, ?_⟩
  · intro p hp hpne
    have hres : resolveProjectIdResult ro auth = .ok p := by
      unfold resolveProjectIdResult usesAuthLookup
      rw [hp]
      simp [hpne]
    exact (makeRequest_pids_eq t st mp auth ro uuid cb p hres hpne).1
  · intro hp
    unfold resolveProjectIdResult usesAuthLookup
    rw [hp]
    simp
  · intro s hp hok hsne
    have hres : resolveProjectIdResult ro auth = .ok s := by
      unfold resolveProjectIdResult usesAuthLookup
      rw [hp]
      simpa using hok
    exact makeRequest_pids_eq t st mp auth ro uuid cb s hres hsne

/-- **C5** (amended): an absolute descriptor url is used as the dispatched
URL except that its query string is replaced by the serialization of the
(project-substituted) query-parameter mapping; a relative descriptor url is
concatenated onto the base URL, likewise with its query string replaced. -/
theorem makeRequest_url_construction {T : Type} (t : TransportConfig T)
    (st : TransportState) (mp : Option String) (auth : AuthEnv T)
    (ro : StorageRequestOptions T) (uuid : String) (cb : Bool) (pid : String)
    (hres : resolveProjectIdResult ro auth = .ok pid) (hpid : pid ≠ "") :
    ∀ cfg, (makeRequest t st mp auth ro uuid cb).dispatched = some cfg →
      (isValidUrl (ro.url.getD "") = true →
        cfg.url = { base := stripSearch (ro.url.getD ""),
                    search := serializeQuery (effectiveQueryParams (some pid) (some pid)
                      (ro.queryParameters.getD [])) }) ∧
      (isValidUrl (ro.url.getD "") = false →
        cfg.url = { base := stripSearch (t.baseUrl ++ ro.url.getD ""),
                    search := serializeQuery (effectiveQueryParams (some pid) (some pid)
                      (ro.queryParameters.getD [])) }) := by
  intro cfg hcfg
  rw [makeRequest_dispatched_eq t st mp auth ro uuid cb pid hres hpid] at hcfg
  simp only [Option.some.injEq] at hcfg
  subst hcfg
  constructor
  · intro hv
    show buildUrl t.baseUrl (some pid) (some pid) (ro.url.getD "")
        (ro.queryParameters.getD []) = _
    unfold buildUrl
    rw [hv]
    simp
  · intro hv
    show buildUrl t.baseUrl (some pid) (some pid) (ro.url.getD "")
        (ro.queryParameters.getD []) = _
    unfold buildUrl
    rw [hv]
    simp

/-- **C6** (amended): the retry policy dispatched to the request engine is
the transport's configured `RetryOptions`, field by field, whenever the
descriptor does not itself carry a `retryConfig`; a descriptor-level
`retryConfig` overrides it (the descriptor is spread into the config after
the retry policy).  The dispatch also passes the descriptor's method and
body, the assembled headers, the completed URL, and the transport's
configured timeout. -/
theorem makeRequest_retry_policy {T : Type} (t : TransportConfig T)
    (st : TransportState) (mp : Option String) (auth : AuthEnv T)
    (ro : StorageRequestOptions T) (uuid : String) (cb : Bool) (pid : String)
    (hres : resolveProjectIdResult ro auth = .ok pid) (hpid : pid ≠ "") :
    ∀ cfg, (makeRequest t st mp auth ro uuid cb).dispatched = some cfg →
      (ro.retryConfig = none →
        cfg.retryConfig.retry = t.retryOptions.maxRetries ∧
        cfg.retryConfig.noResponseRetries = t.retryOptions.maxRetries ∧
        cfg.retryConfig.maxRetryDelay = t.retryOptions.maxRetryDelay ∧
        cfg.retryConfig.retryDelayMultiplier = t.retryOptions.retryDelayMultiplier ∧
        cfg.retryConfig.shouldRetry = t.retryOptions.retryableErrorFn ∧
        cfg.retryConfig.totalTimeout = t.retryOptions.totalTimeout) ∧
      (∀ rc, ro.retryConfig = some rc → cfg.retryConfig = rc) ∧
      cfg.method = ro.method ∧
      cfg.data = ro.data ∧
      cfg.headers = applyCmdTag ro.gcclGcsCmd (buildRequestHeaders t uuid (ro.headers.getD [])) ∧
      cfg.url = buildUrl t.baseUrl (some pid) (some pid) (ro.url.getD "")
        (ro.queryParameters.getD []) ∧
      cfg.timeout = t.timeout := by
  intro cfg hcfg
  rw [makeRequest_dispatched_eq t st mp auth ro uuid cb pid hres hpid] at hcfg
  simp only [Option.some.injEq] at hcfg
  subst hcfg
  refine ⟨?_, ?_, rfl, rfl, rfl, rfl, rfl⟩
  · intro h
    show ((dispatchConfig t (some pid) (some pid) ro _).retryConfig.retry = _) ∧ _
    unfold dispatchConfig
    rw [h]
    exact ⟨rfl, rfl, rfl, rfl, rfl, rfl⟩
  · intro rc h
    show (dispatchConfig t (some pid) (some pid) ro _).retryConfig = rc
    unfold dispatchConfig
    rw [h]
    rfl

/-- **C7**: when the auth collaborator's project-id lookup fails, nothing
is dispatched to the request engine and the very error of the lookup
reaches the caller: the callback is invoked with it, or the returned
promise rejects with it. -/
theorem makeRequest_resolution_error {T : Type} (t : TransportConfig T)
    (st : TransportState) (mp : Option String) (auth : AuthEnv T)
    (ro : StorageRequestOptions T) (uuid : String) (e : GaxiosError T)
    (hauth : auth.getProjectId = .error e) (hlookup : usesAuthLookup ro = true) :
    (makeRequest t st mp auth ro uuid true).dispatched = none ∧
    (makeRequest t st mp auth ro uuid false).dispatched = none ∧
    (makeRequest t st mp auth ro uuid true).outcome = .callbackCalled (some e) none none ∧
    (makeRequest t st mp auth ro uuid false).outcome = .promiseRejected e := by
  have hres : resolveProjectIdResult ro auth = .error e := by
    unfold resolveProjectIdResult
    rw [hlookup, hauth]
    rfl
  unfold makeRequest
  rw [hres]
  simp

/-- **C8**: a descriptor carrying an interceptor list (even an empty one)
replaces the request engine's interceptors with exactly that list, in
order; a descriptor without interceptors leaves the engine's list
unchanged. -/
theorem makeRequest_interceptor_replacement {T : Type} (t : TransportConfig T)
    (st : TransportState) (mp : Option String) (auth : AuthEnv T)
    (ro : StorageRequestOptions T) (uuid : String) (cb : Bool) :
    (∀ l, ro.interceptors = some l →
      (makeRequest t st mp auth ro uuid cb).state.interceptors = l) ∧
    (ro.interceptors = none →
      (makeRequest t st mp auth ro uuid cb).state.interceptors = st.interceptors) := by
  constructor
  · intro l hl
    rw [makeRequest_interceptors_eq]
    unfold newInterceptors
    rw [hl]
  · intro hl
    rw [makeRequest_interceptors_eq]
    unfold newInterceptors
    rw [hl]

/-- **C9**: a truthy command tag is appended to the computed tracking
header — the dispatched `x-goog-api-client` value is the tracking string
with ` gccl-gcs-cmd/<tag>` appended — and an absent tag leaves the
tracking header exactly the computed tracking string. -/
theorem makeRequest_command_tag {T : Type} (t : TransportConfig T)
    (st : TransportState) (mp : Option String) (auth : AuthEnv T)
    (ro : StorageRequestOptions T) (uuid : String) (cb : Bool) :
    ∀ cfg, (makeRequest t st mp auth ro uuid cb).dispatched = some cfg →
      (∀ tag, ro.gcclGcsCmd = some tag → tag ≠ "" →
        hget cfg.headers "x-goog-api-client"
          = some (trackingString uuid ++ " gccl-gcs-cmd/" ++ tag)) ∧
      (ro.gcclGcsCmd = none →
        hget cfg.headers "x-goog-api-client" = some (trackingString uuid)) := by
  intro cfg hcfg
  rw [makeRequest_headers_eq t st mp auth ro uuid cb cfg hcfg]
  constructor
  · intro tag htag hne
    rw [htag]
    simp only [applyCmdTag, if_neg hne]
    rw [hget_hset_self, hget_buildRequestHeaders_tracking t uuid _]
    rfl
  · intro h
    rw [h]
    exact hget_buildRequestHeaders_tracking t uuid _

/-- **C10**: the config handed to the request engine carries the
transport-computed URL, headers and timeout — these three fields are
assigned after the descriptor is spread into the config, so the
descriptor's raw `url`, `headers` and `timeout` never reach the engine. -/
theorem makeRequest_computed_fields_override {T : Type} (t : TransportConfig T)
    (st : TransportState) (mp : Option String) (auth : AuthEnv T)
    (ro : StorageRequestOptions T) (uuid : String) (cb : Bool) (pid : String)
    (hres : resolveProjectIdResult ro auth = .ok pid) (hpid : pid ≠ "") :
    ∀ cfg, (makeRequest t st mp auth ro uuid cb).dispatched = some cfg →
      cfg.url = buildUrl t.baseUrl (some pid) (some pid) (ro.url.getD "")
        (ro.queryParameters.getD []) ∧
      cfg.headers = applyCmdTag ro.gcclGcsCmd (buildRequestHeaders t uuid (ro.headers.getD [])) ∧
      cfg.timeout = t.timeout := by
  intro cfg hcfg
  rw [makeRequest_dispatched_eq t st mp auth ro uuid cb pid hres hpid] at hcfg
  simp only [Option.some.injEq] at hcfg
  subst hcfg
  exact ⟨rfl, rfl, rfl⟩

/-- Witness for C1: a concrete callback-mode success run invokes the
callback with `(null, data, fullResponse)`. -/
theorem makeRequest_outcome_normalization_witness :
    (makeRequest fixTransport {} none fixAuthOk {} "uuid-w1" true).outcome
      = .callbackCalled none (some 7) (some fixResp) :=
  (makeRequest_outcome_normalization fixTransport {} none fixAuthOk {} "uuid-w1").2.2.1
    (fixCfg {} "uuid-w1" "correct-id") fixResp rfl rfl

/-- Counterexample for C1 as stated: when the project-id lookup fails with
an error that carries a response, the callback's third argument is absent
(`none`), not `error.response`. -/
theorem makeRequest_outcome_normalization_counterexample :
    (makeRequest fixTransport {} none fixAuthLookupFail {} "uuid-c1" true).outcome
      = .callbackCalled (some fixLookupErr) none none ∧
    (makeRequest fixTransport {} none fixAuthLookupFail {} "uuid-c1" true).outcome
      ≠ .callbackCalled (some fixLookupErr) none fixLookupErr.response :=
  ⟨rfl, by decide⟩

/-- Witness for C2: with query `{project: "wrong-id"}` and resolved id
`correct-id`, the dispatched query string is `project=correct-id`. -/
theorem makeRequest_project_substitution_witness :
    (makeRequest fixTransport {} none fixAuthOk fixRoQuery "uuid-w2" false).dispatched
      = some (fixCfg fixRoQuery "uuid-w2" "correct-id") ∧
    (fixCfg fixRoQuery "uuid-w2" "correct-id").url.search
      = serializeQuery (setQueryParam [("project", some "wrong-id")] "project"
          (some "correct-id")) ∧
    queryValue (setQueryParam [("project", some "wrong-id")] "project" (some "correct-id"))
      "project" = some "correct-id" ∧
    serializeQuery (setQueryParam [("project", some "wrong-id")] "project"
      (some "correct-id")) = "project=correct-id" := by
  have h := makeRequest_project_substitution fixTransport {} none fixAuthOk fixRoQuery
    "uuid-w2" false "correct-id" rfl (by decide) rfl (by decide)
    (fixCfg fixRoQuery "uuid-w2" "correct-id") rfl
  exact ⟨rfl, h.1, h.2, by decide⟩

/-- Witness for C3: on a transport configured with the user agent
`my-app/1.2`, the dispatched `User-Agent` is that agent prefixed to the
computed default, and a caller-supplied `Content-Type` header survives
unchanged next to the reserved system headers. -/
theorem makeRequest_header_composition_witness :
    hget (fixCfgUA fixRoHeaders "uuid-w3" "correct-id").headers "User-Agent"
      = some ("my-app/1.2" ++ " " ++ utilUserAgentString) ∧
    hget (fixCfgUA fixRoHeaders "uuid-w3" "correct-id").headers "Content-Type"
      = some "application/json" := by
  have h := makeRequest_header_composition fixTransportUA {} none fixAuthOk fixRoHeaders
    "uuid-w3" false (by decide) (fixCfgUA fixRoHeaders "uuid-w3" "correct-id") rfl
  exact ⟨h.1 "my-app/1.2" rfl (by decide),
    h.2.2.2.2 ("Content-Type", "application/json") (by decide) (by decide) (by decide)⟩

/-- Witness for C4 (amended): after the cache was corrupted to
`override-id`, a default call still resolves to and re-caches the auth
identity. -/
theorem makeRequest_project_cache_witness :
    (makeRequest fixTransport {} (some "override-id") fixAuthAuthId
      ({} : StorageRequestOptions Nat) "uuid-w4" false).modulePid = some "auth-id" ∧
    (makeRequest fixTransport {} (some "override-id") fixAuthAuthId
      ({} : StorageRequestOptions Nat) "uuid-w4" false).state.transPid = some "auth-id" :=
  (makeRequest_project_cache fixTransport {} (some "override-id") fixAuthAuthId {} "uuid-w4"
      false).2.2 "auth-id" rfl rfl (by decide)

/-- Counterexample for C4 as stated: an explicit per-request project id
does overwrite the module-scope cache with a value mismatching the auth
identity it held. -/
theorem makeRequest_project_cache_counterexample :
    (makeRequest fixTransport {} (some "auth-id") fixAuthAuthId fixRoPid "uuid-c4"
      false).modulePid = some "override-id" ∧
    fixAuthAuthId.getProjectId = .ok "auth-id" ∧
    (some "override-id" : Option String) ≠ some "auth-id" :=
  ⟨rfl, rfl, by decide⟩

/-- Witness for C5 (amended): an absolute descriptor url is dispatched with
its base kept and its query string replaced. -/
theorem makeRequest_url_construction_witness :
    (fixCfg fixRoAbs "uuid-w5" "correct-id").url
      = { base := stripSearch "https://example.com/x?token=1",
          search := serializeQuery (effectiveQueryParams (some "correct-id")
            (some "correct-id") []) } :=
  ((makeRequest_url_construction fixTransport {} none fixAuthOk fixRoAbs "uuid-w5" false
      "correct-id" rfl (by decide)) (fixCfg fixRoAbs "uuid-w5" "correct-id") rfl).1 rfl

/-- Counterexample for C5 as stated: an absolute url carrying its own query
string is not dispatched verbatim — its query string is dropped in favour
of the (here empty) query-parameter mapping. -/
theorem makeRequest_url_construction_counterexample :
    (makeRequest fixTransport {} none fixAuthOk fixRoAbs "uuid-c5" false).dispatched.map
      (fun c => c.url) = some { base := "https://example.com/x", search := "" } ∧
    ({ base := "https://example.com/x", search := "" } : Url)
      ≠ urlOfString "https://example.com/x?token=1" :=
  ⟨rfl, by decide⟩

/-- Witness for C6 (amended): without a descriptor-level `retryConfig` the
dispatched retry policy equals the transport's options, field by field. -/
theorem makeRequest_retry_policy_witness :
    (fixCfg {} "uuid-w6" "correct-id").retryConfig.retry
        = fixTransport.retryOptions.maxRetries ∧
    (fixCfg {} "uuid-w6" "correct-id").retryConfig.noResponseRetries
        = fixTransport.retryOptions.maxRetries ∧
    (fixCfg {} "uuid-w6" "correct-id").retryConfig.maxRetryDelay
        = fixTransport.retryOptions.maxRetryDelay ∧
    (fixCfg {} "uuid-w6" "correct-id").retryConfig.retryDelayMultiplier
        = fixTransport.retryOptions.retryDelayMultiplier ∧
    (fixCfg {} "uuid-w6" "correct-id").retryConfig.shouldRetry
        = fixTransport.retryOptions.retryableErrorFn ∧
    (fixCfg {} "uuid-w6" "correct-id").retryConfig.totalTimeout
        = fixTransport.retryOptions.totalTimeout :=
  ((makeRequest_retry_policy fixTransport {} none fixAuthOk {} "uuid-w6" false "correct-id"
      rfl (by decide)) (fixCfg {} "uuid-w6" "correct-id") rfl).1 rfl

/-- Counterexample for C6 as stated: a descriptor-level `retryConfig`
overrides the transport's retry policy (descriptor spread after it). -/
theorem makeRequest_retry_policy_counterexample :
    (makeRequest fixTransport {} none fixAuthOk fixRoRc "uuid-c6" false).dispatched.map
      (fun c => c.retryConfig.retry) = some 99 ∧
    fixTransport.retryOptions.maxRetries = 3 ∧ (99 : Nat) ≠ 3 :=
  ⟨rfl, rfl, by decide⟩

/-- Witness for C7: a concrete failed lookup reaches the caller through
both calling conventions, with nothing dispatched. -/
theorem makeRequest_resolution_error_witness :
    (makeRequest fixTransport {} none fixAuthLookupFail ({} : StorageRequestOptions Nat)
      "uuid-w7" true).dispatched = none ∧
    (makeRequest fixTransport {} none fixAuthLookupFail ({} : StorageRequestOptions Nat)
      "uuid-w7" false).dispatched = none ∧
    (makeRequest fixTransport {} none fixAuthLookupFail ({} : StorageRequestOptions Nat)
      "uuid-w7" true).outcome = .callbackCalled (some fixLookupErr) none none ∧
    (makeRequest fixTransport {} none fixAuthLookupFail ({} : StorageRequestOptions Nat)
      "uuid-w7" false).outcome = .promiseRejected fixLookupErr :=
  makeRequest_resolution_error fixTransport {} none fixAuthLookupFail {} "uuid-w7"
    fixLookupErr rfl rfl

/-- Witness for C8: a descriptor interceptor list replaces a previously
installed one. -/
theorem makeRequest_interceptor_replacement_witness :
    (makeRequest fixTransport fixState none fixAuthOk fixRoInter "uuid-w8"
      false).state.interceptors = [{ id := 2 }, { id := 3 }] :=
  (makeRequest_interceptor_replacement fixTransport fixState none fixAuthOk fixRoInter
      "uuid-w8" false).1 [{ id := 2 }, { id := 3 }] rfl

/-- Witness for C9: a concrete command tag is appended to the tracking
header. -/
theorem makeRequest_command_tag_witness :
    hget (fixCfg fixRoTag "uuid-w9" "correct-id").headers "x-goog-api-client"
      = some (trackingString "uuid-w9" ++ " gccl-gcs-cmd/" ++ "tm.upload") :=
  ((makeRequest_command_tag fixTransport {} none fixAuthOk fixRoTag "uuid-w9" false)
      (fixCfg fixRoTag "uuid-w9" "correct-id") rfl).1 "tm.upload" rfl (by decide)

/-- Witness for C10: with raw `url`, `headers` and `timeout` on the
descriptor, the dispatched config carries the transport-computed values. -/
theorem makeRequest_computed_fields_override_witness :
    (fixCfg fixRoRaw "uuid-w10" "correct-id").url
        = buildUrl fixTransport.baseUrl (some "correct-id") (some "correct-id")
            "/b/bucket" [] ∧
    (fixCfg fixRoRaw "uuid-w10" "correct-id").headers
        = applyCmdTag none (buildRequestHeaders fixTransport "uuid-w10"
            [("User-Agent", "custom-agent")]) ∧
    (fixCfg fixRoRaw "uuid-w10" "correct-id").timeout = some 60000 :=
  (makeRequest_computed_fields_override fixTransport {} none fixAuthOk fixRoRaw "uuid-w10"
      false "correct-id" rfl (by decide)) (fixCfg fixRoRaw "uuid-w10" "correct-id") rfl
